import Mathlib

/-!
Shallow embedding of the front-panel controller of the `display` repository.

The definitions below are transcribed from the Go sources:
* `internal/controller/display_controller.go` — serial frame extraction
  (`processMessageBuffer`), button-state decoding (`parseButtonState`),
  edge detection (`checkButtonStateChange`), and `WriteTextAt`;
* the LED controller (`SetLED`, `SetDiskLEDs`, `SetStatusLED`,
  `updatePortLEDs`, `readPort`, `writePort`);
* `internal/controller/system_controller.go` — `SetDiskActivity`;
* the USB-copy monitor (`IsButtonPressed`, `GetButtonState`);
* `internal/serial/serial_port.go` — `ReadAvailable`.

Bytes are modelled as `Nat` with explicit `% 256` where the Go `byte`
width matters.  Fallible operations return `Except String _` or carry an
`Option String` error component.  Side effects on hardware are made
explicit: port registers are a function `Nat → Nat` and every port read
or write is recorded in a trace list.
-/

namespace Display

/-- The three panel buttons (`PanelButton` in `display_controller.go`). -/
inductive PanelButton where
  | enter
  | select
  | usbCopy
deriving DecidableEq, Repr, Fintype

/-- A button event as handed to the registered handler: which button and
whether it is now pressed. -/
abbrev ButtonEvent := PanelButton × Bool

/-- The `lastButtonState map[PanelButton]bool` of the display controller:
per-button last recorded pressed value, absent before the first record. -/
structure ButtonStates where
  enter : Option Bool
  select : Option Bool
  usbCopy : Option Bool
deriving DecidableEq, Repr, Fintype

/-- The freshly-made map (`make(map[PanelButton]bool)`). -/
def emptyStates : ButtonStates := ⟨none, none, none⟩

/-- Map lookup `lastButtonState[button]`. -/
def ButtonStates.get (st : ButtonStates) : PanelButton → Option Bool
  | .enter => st.enter
  | .select => st.select
  | .usbCopy => st.usbCopy

/-- Map update `lastButtonState[button] = pressed`. -/
def ButtonStates.set (st : ButtonStates) : PanelButton → Bool → ButtonStates
  | .enter, v => { st with enter := some v }
  | .select, v => { st with select := some v }
  | .usbCopy, v => { st with usbCopy := some v }

/-- Model of `checkButtonStateChange`: returns the updated map together
with whether the state changed (absent counts as changed); the map is
written only in the changed case, exactly as in the Go code. -/
def checkButtonStateChange (st : ButtonStates) (button : PanelButton)
    (pressed : Bool) : ButtonStates × Bool :=
  match st.get button with
  | none => (st.set button pressed, true)
  | some last =>
    if last ≠ pressed then (st.set button pressed, true) else (st, false)

/-- Core of `parseButtonState` once the three pressed bits have been
decoded from the state byte: run the three edge checks in source order
(ENTER, SELECT, USB_COPY) and collect the triggered events. -/
def parseBools (enterPressed selectPressed usbCopyPressed : Bool)
    (st : ButtonStates) : ButtonStates × List ButtonEvent :=
  let c1 := checkButtonStateChange st PanelButton.enter enterPressed
  let e1 : List ButtonEvent :=
    if c1.2 then [(PanelButton.enter, enterPressed)] else []
  let c2 := checkButtonStateChange c1.1 PanelButton.select selectPressed
  let e2 : List ButtonEvent :=
    if c2.2 then [(PanelButton.select, selectPressed)] else []
  let c3 := checkButtonStateChange c2.1 PanelButton.usbCopy usbCopyPressed
  let e3 : List ButtonEvent :=
    if c3.2 then [(PanelButton.usbCopy, usbCopyPressed)] else []
  (c3.1, e1 ++ e2 ++ e3)

/-- Model of `parseButtonState`: decode the state byte — bit 0 ENTER
(active-low), bit 1 SELECT (active-low), bit 2 USB_COPY (active-high) —
and trigger an event for each button whose value changed. -/
def parseButtonState (state : Nat) (st : ButtonStates) :
    ButtonStates × List ButtonEvent :=
  parseBools (decide (state &&& 0x01 = 0)) (decide (state &&& 0x02 = 0))
    (decide (state &&& 0x04 ≠ 0)) st

/-- Result of one `processMessageBuffer` call: the remaining buffer, the
updated last-state map, the button events triggered (in order), and the
state bytes handed to `parseButtonState` (in order). -/
structure ProcResult where
  buffer : List Nat
  states : ButtonStates
  events : List ButtonEvent
  parsed : List Nat
deriving DecidableEq, Repr

/-- Model of `processMessageBuffer`: repeatedly extract frames from the
front of the buffer while at least 4 bytes remain.  In order: a button
frame `0x53 0x05 0x00 s` consumes 4 bytes and parses `s`; a leading
`0x4D` consumes 3 bytes; a leading `0x55` or `0x43` consumes 2 bytes and
synthesizes a USB_COPY press followed by a release; otherwise one byte
is dropped, and if more than 16 bytes then remain the whole buffer is
cleared and the loop exits. -/
def processMessageBuffer : List Nat → ButtonStates → ProcResult
  | b0 :: b1 :: b2 :: b3 :: rest, st =>
    if b0 = 0x53 ∧ b1 = 0x05 ∧ b2 = 0x00 then
      let p := parseButtonState b3 st
      let r := processMessageBuffer rest p.1
      ⟨r.buffer, r.states, p.2 ++ r.events, b3 :: r.parsed⟩
    else if b0 = 0x4D then
      processMessageBuffer (b3 :: rest) st
    else if b0 = 0x55 ∨ b0 = 0x43 then
      let r := processMessageBuffer (b2 :: b3 :: rest) st
      ⟨r.buffer, r.states,
        (PanelButton.usbCopy, true) :: (PanelButton.usbCopy, false) :: r.events,
        r.parsed⟩
    else
      if (b1 :: b2 :: b3 :: rest).length > 16 then ⟨[], st, [], []⟩
      else processMessageBuffer (b1 :: b2 :: b3 :: rest) st
  | buf, st => ⟨buf, st, [], []⟩

/-- The nine panel LEDs (`PanelLED` in the LED controller). -/
inductive PanelLED where
  | statusGreen
  | statusRed
  | usb
  | disk1
  | disk2
  | disk3
  | disk4
  | disk5
  | disk6
deriving DecidableEq, Repr, Fintype

/-- Hardware register file: the byte stored at each register address. -/
def Ports := Nat → Nat

/-- One observable hardware access performed by the LED controller. -/
inductive PortOp where
  | read (register : Nat)
  | write (register : Nat) (value : Nat)
deriving DecidableEq, Repr

/-- Model of `readPort`: the current byte of a register (Go `byte`
width). -/
def readPort (ports : Ports) (register : Nat) : Nat := ports register % 256

/-- Model of `writePort`: store a byte into one register. -/
def writePort (ports : Ports) (register : Nat) (value : Nat) : Ports :=
  fun r => if r = register then value else ports r

/-- Lookup of `port.leds[led]` in an association list. -/
def ledsLookup : List (PanelLED × Nat) → PanelLED → Option Nat
  | [], _ => none
  | (l, b) :: rest, led => if led = l then some b else ledsLookup rest led

/-- The `statusLEDPort` table: register 0x91, StatusGreen bit 2,
StatusRed bit 3. -/
def statusLEDPort : Nat × List (PanelLED × Nat) :=
  (0x91, [(PanelLED.statusGreen, 2), (PanelLED.statusRed, 3)])

/-- The `diskLEDPort` table: register 0x81, Disk1..Disk6 on bits 0..5. -/
def diskLEDPort : Nat × List (PanelLED × Nat) :=
  (0x81, [(PanelLED.disk1, 0), (PanelLED.disk2, 1), (PanelLED.disk3, 2),
          (PanelLED.disk4, 3), (PanelLED.disk5, 4), (PanelLED.disk6, 5)])

/-- The `usbLEDPort` table: register 0xE1, USB bit 7. -/
def usbLEDPort : Nat × List (PanelLED × Nat) :=
  (0xE1, [(PanelLED.usb, 7)])

/-- Model of `updatePortLEDs`: read the register once, flip each
requested LED bit (QNAP LEDs are inverted: clearing a bit turns the LED
on), and write the byte back only when it changed.  Returns the new
register file and the trace of hardware accesses. -/
def updatePortLEDs (port : Nat × List (PanelLED × Nat))
    (newStates : List (PanelLED × Bool)) (ports : Ports) :
    Ports × List PortOp :=
  let currentMask := readPort ports port.1
  let mask := newStates.foldl
    (fun m ls =>
      match ledsLookup port.2 ls.1 with
      | some bit =>
        if ls.2 then m &&& (255 ^^^ (1 <<< bit)) else m ||| (1 <<< bit)
      | none => m)
    currentMask
  if mask ≠ currentMask then
    (writePort ports port.1 mask, [PortOp.read port.1, PortOp.write port.1 mask])
  else
    (ports, [PortOp.read port.1])

/-- Model of `SetLED`: without port permission a silent no-op returning
success; otherwise find the port configuration holding the LED and
update that single bit via one read-modify-write.  Port accesses
themselves cannot fail in this model, so the only error is an unknown
LED. -/
def SetLED (portPerms : Bool) (led : PanelLED) (turnOn : Bool) (ports : Ports) :
    Ports × List PortOp × Option String :=
  if !portPerms then (ports, [], none)
  else
    match ledsLookup statusLEDPort.2 led with
    | some bit =>
      let r := updatePortLEDs (statusLEDPort.1, [(led, bit)]) [(led, turnOn)] ports
      (r.1, r.2, none)
    | none =>
      match ledsLookup diskLEDPort.2 led with
      | some bit =>
        let r := updatePortLEDs (diskLEDPort.1, [(led, bit)]) [(led, turnOn)] ports
        (r.1, r.2, none)
      | none =>
        match ledsLookup usbLEDPort.2 led with
        | some bit =>
          let r := updatePortLEDs (usbLEDPort.1, [(led, bit)]) [(led, turnOn)] ports
          (r.1, r.2, none)
        | none => (ports, [], some "unknown LED")

/-- Model of `SetDiskLEDs`: without port permission a silent no-op;
otherwise collect the valid 1-based disk indices and update the shared
disk register with one read-modify-write. -/
def SetDiskLEDs (portPerms : Bool) (states : List (Nat × Bool)) (ports : Ports) :
    Ports × List PortOp × Option String :=
  if !portPerms then (ports, [], none)
  else
    let diskLEDs : List PanelLED :=
      [PanelLED.disk1, PanelLED.disk2, PanelLED.disk3,
       PanelLED.disk4, PanelLED.disk5, PanelLED.disk6]
    let ledStates := states.foldl
      (fun acc ds =>
        if 1 ≤ ds.1 ∧ ds.1 ≤ 6 then
          acc ++ [(diskLEDs.getD (ds.1 - 1) PanelLED.disk1, ds.2)]
        else acc)
      []
    if ledStates.length = 0 then (ports, [], none)
    else
      let r := updatePortLEDs diskLEDPort ledStates ports
      (r.1, r.2, none)

/-- Model of `SetStatusLED`: without port permission a silent no-op;
otherwise one read-modify-write on the status register for the red and
green bits. -/
def SetStatusLED (portPerms : Bool) (red green : Bool) (ports : Ports) :
    Ports × List PortOp × Option String :=
  if !portPerms then (ports, [], none)
  else
    let r := updatePortLEDs statusLEDPort
      [(PanelLED.statusRed, red), (PanelLED.statusGreen, green)] ports
    (r.1, r.2, none)

/-- Model of `SetDiskActivity` of the system controller: no-op when no
LED controller is present, error for a disk number outside 1..6,
otherwise one `SetLED` call on the chosen disk LED. -/
def SetDiskActivity (led : Option Bool) (diskNum : Int) (active : Bool)
    (ports : Ports) : Ports × List PortOp × Option String :=
  match led with
  | none => (ports, [], none)
  | some portPerms =>
    let target : Option PanelLED :=
      if diskNum = 1 then some PanelLED.disk1
      else if diskNum = 2 then some PanelLED.disk2
      else if diskNum = 3 then some PanelLED.disk3
      else if diskNum = 4 then some PanelLED.disk4
      else if diskNum = 5 then some PanelLED.disk5
      else if diskNum = 6 then some PanelLED.disk6
      else none
    match target with
    | none => (ports, [], some "invalid disk number (must be 1-6)")
    | some l =>
      let r := SetLED portPerms l active ports
      match r.2.2 with
      | some e => (r.1, r.2.1, some ("failed to set disk LED: " ++ e))
      | none => (r.1, r.2.1, none)

/-- Register owning each LED, read off the three port tables. -/
def ledRegister : PanelLED → Nat
  | .statusGreen => 0x91
  | .statusRed => 0x91
  | .usb => 0xE1
  | _ => 0x81

/-- Bit position of each LED inside its register, read off the tables. -/
def ledBit : PanelLED → Nat
  | .statusGreen => 2
  | .statusRed => 3
  | .usb => 7
  | .disk1 => 0
  | .disk2 => 1
  | .disk3 => 2
  | .disk4 => 3
  | .disk5 => 4
  | .disk6 => 5

/-- The byte-level effect of one LED update on its register: turning on
clears the bit (inverted logic), turning off sets it. -/
def applyBit (m b : Nat) (t : Bool) : Nat :=
  if t then m &&& (255 ^^^ (1 <<< b)) else m ||| (1 <<< b)

/-- Model of `IsButtonPressed` of the USB-copy monitor: the button is
pressed exactly when bit 0 of the port byte is low (active-low). -/
def IsButtonPressed (value : Nat) : Bool := decide (value &&& 0x01 = 0)

/-- Model of `GetButtonState`: take 3 samples of the port and report
pressed when the majority of samples (count > 3/2 in integer division)
are pressed.  `sample i` is the port byte returned by the i-th read. -/
def GetButtonState (sample : Nat → Nat) : Bool :=
  let pressedCount := (List.range 3).foldl
    (fun acc i => if IsButtonPressed (sample i) then acc + 1 else acc) 0
  decide (pressedCount > 3 / 2)

/-- Model of `ReadAvailable` of the serial wrapper, as a function of
whether the port handle exists and of the outcome of the underlying
256-byte read (`Except.error msg` for a failed read, `Except.ok data`
for a read returning `data`). -/
def ReadAvailable (portOpen : Bool) (readResult : Except String (List Nat)) :
    Except String (List Nat) :=
  if !portOpen then Except.ok []
  else
    match readResult with
    | Except.error msg =>
      if msg = "timeout" ∨ msg = "EOF" ∨ msg = "resource temporarily unavailable"
      then Except.ok []
      else Except.ok []
    | Except.ok data => if data.length = 0 then Except.ok [] else Except.ok data

/-- Model of `WriteTextAt`: validate the row (0 or 1), truncate the text
to 16 bytes, right-pad with spaces (0x20) to exactly 16 bytes, and emit
the command `0x4D 0x0C <row> 0x10` followed by the 16 text bytes.  The
`col` argument is accepted but unused, as in the source.  The `ok`
payload is the byte sequence written to the serial port; an error writes
nothing. -/
def WriteTextAt (text : List Nat) (row col : Int) : Except String (List Nat) :=
  if row < 0 ∨ row > 1 then Except.error "invalid row"
  else
    let displayText := text.take 16
    let padded := displayText ++ List.replicate (16 - displayText.length) 0x20
    Except.ok ([0x4D, 0x0C, row.toNat, 0x10] ++ padded)

end Display

namespace Display

/-- One call on a buffer holding exactly one well-formed button frame:
the frame is consumed, `s` is parsed once, and the parse's state update
and events are returned. -/
theorem processMessageBuffer_frame (s : Nat) (st : ButtonStates) :
    processMessageBuffer [0x53, 0x05, 0x00, s] st =
      ⟨[], (parseButtonState s st).1, (parseButtonState s st).2, [s]⟩ := by
  simp [processMessageBuffer]

/-- Re-running the three edge checks with the same decoded bits changes
nothing and triggers no events. -/
theorem parseBools_repeat (e sl u : Bool) (st : ButtonStates) :
    parseBools e sl u (parseBools e sl u st).1 = ((parseBools e sl u st).1, []) := by
  revert e sl u st; decide

/-- From the empty map every button counts as changed, in source order. -/
theorem parseBools_empty (e sl u : Bool) :
    parseBools e sl u emptyStates =
      (⟨some e, some sl, some u⟩,
        [(PanelButton.enter, e), (PanelButton.select, sl), (PanelButton.usbCopy, u)]) := by
  revert e sl u; decide

/-- After any single extraction pass at most 3 bytes remain buffered. -/
theorem processMessageBuffer_len_le (buf : List Nat) (st : ButtonStates) :
    ((processMessageBuffer buf st).buffer).length ≤ 3 := by
  induction buf, st using processMessageBuffer.induct with
  | case1 b0 b1 b2 b3 rest st h p ih =>
    simp only [processMessageBuffer, if_pos h]
    exact ih
  | case2 b1 b2 b3 rest st h ih =>
    simpa [processMessageBuffer, if_neg h] using ih
  | case3 b0 b1 b2 b3 rest st h1 h2 h3 ih =>
    simp only [processMessageBuffer, if_neg h1, if_neg h2, if_pos h3]
    exact ih
  | case4 b0 b1 b2 b3 rest st h1 h2 h3 h4 =>
    simp only [processMessageBuffer, if_neg h1, if_neg h2, if_neg h3, if_pos h4]
    simp
  | case5 b0 b1 b2 b3 rest st h1 h2 h3 h4 ih =>
    simp only [processMessageBuffer, if_neg h1, if_neg h2, if_neg h3, if_neg h4]
    exact ih
  | case6 buf st h =>
    rcases buf with _ | ⟨a, _ | ⟨b, _ | ⟨c, _ | ⟨d, r⟩⟩⟩⟩
    · simp [processMessageBuffer]
    · simp [processMessageBuffer]
    · simp [processMessageBuffer]
    · simp [processMessageBuffer]
    · exact absurd rfl (h a b c d r)

set_option maxRecDepth 8192 in
/-- The function `applyBit` stays within a byte. -/
theorem applyBit_lt : ∀ m < 256, ∀ b < 8, ∀ t : Bool, applyBit m b t < 256 := by
  decide

set_option maxRecDepth 32768 in
/-- The function `applyBit` touches only the targeted bit of a byte. -/
theorem applyBit_testBit_ne :
    ∀ m < 256, ∀ b < 8, ∀ t : Bool, ∀ i < 8, i ≠ b →
      (applyBit m b t).testBit i = m.testBit i := by
  decide

/-- With permission, `SetLED` leaves every other register untouched. -/
theorem SetLED_other_reg (ports : Ports) (led : PanelLED) (t : Bool) (r : Nat)
    (hr : r ≠ ledRegister led) : (SetLED true led t ports).1 r = ports r := by
  cases led <;>
    simp only [ledRegister] at hr <;>
    simp [SetLED, updatePortLEDs, ledsLookup, statusLEDPort, diskLEDPort,
      usbLEDPort, readPort] <;>
    split <;>
    first
      | rfl
      | (split <;> first | rfl | simp [writePort, hr])

/-- The byte left in the LED's own register by `SetLED` is exactly the
read byte with the LED's bit applied. -/
theorem SetLED_reg_mod (ports : Ports) (led : PanelLED) (t : Bool) :
    ((SetLED true led t ports).1 (ledRegister led)) % 256
      = applyBit (readPort ports (ledRegister led)) (ledBit led) t := by
  have hm : ∀ reg : Nat, ports reg % 256 < 256 := fun reg => Nat.mod_lt _ (by norm_num)
  have h256 : (256 : Nat) = 2 ^ 8 := by norm_num
  cases led <;> cases t <;>
    simp [SetLED, updatePortLEDs, ledsLookup, statusLEDPort, diskLEDPort,
      usbLEDPort, readPort, applyBit, ledRegister, ledBit] <;>
    split <;>
    rename_i h <;>
    first
      | exact h.symm
      | (simp only [writePort, reduceIte]
         rw [h256]
         refine Nat.mod_eq_of_lt ?_
         first
           | exact Nat.and_lt_two_pow _ (by norm_num)
           | exact Nat.or_lt_two_pow (h256 ▸ hm _) (by norm_num))

/-- The read byte is below 256. -/
theorem readPort_lt (ports : Ports) (register : Nat) :
    readPort ports register < 256 :=
  Nat.mod_lt _ (by norm_num)

/-- Every LED bit position fits in a byte. -/
theorem ledBit_lt : ∀ led : PanelLED, ledBit led < 8 := by decide

/-- Low bits are unaffected by reduction to byte width. -/
theorem testBit_mod256 (x i : Nat) (hi : i < 8) :
    (x % 256).testBit i = x.testBit i := by
  rw [show (256 : Nat) = 2 ^ 8 by norm_num, Nat.testBit_mod_two_pow]
  simp [hi]

set_option maxRecDepth 4096 in
/-- Byte-level form of the C4 scenario: after turning on bit 0 then
bit 1, bit 0 is clear and bit 1 is clear; turning bit 0 back off leaves
bit 1 as it was. -/
theorem applyBit_disk_seq : ∀ m < 256,
    (applyBit (applyBit m 0 true) 1 true).testBit 0 = false ∧
    (applyBit (applyBit m 0 true) 1 true).testBit 1 = false ∧
    (applyBit (applyBit (applyBit m 0 true) 1 true) 0 false).testBit 1
      = (applyBit (applyBit m 0 true) 1 true).testBit 1 := by
  decide

/-- For the nine panel LEDs `SetLED` never reports an error. -/
theorem SetLED_err_none (portPerms : Bool) (led : PanelLED) (t : Bool)
    (ports : Ports) : (SetLED portPerms led t ports).2.2 = none := by
  cases portPerms
  · rfl
  · cases led <;> rfl

end Display

namespace Display

/-- C1 (amended).  Processing a second button frame with the same state
byte `s` emits no events, whatever the prior map contents; with the last
recorded state being that of byte 0xFF, the frame with 0xFE emits only
(ENTER, pressed); the following 0xFF frame emits only (ENTER, released);
and a repeated 0xFE frame emits nothing the second time.  On a first
occurrence one event is emitted per button whose decoded value differs
from (or is missing in) the recorded state — up to three, not always
exactly one. -/
theorem c1_frame_dedup :
    (∀ (s : Nat) (st : ButtonStates),
      (processMessageBuffer [0x53, 0x05, 0x00, s]
        (processMessageBuffer [0x53, 0x05, 0x00, s] st).states).events = []) ∧
    (processMessageBuffer [0x53, 0x05, 0x00, 0xFE]
        (processMessageBuffer [0x53, 0x05, 0x00, 0xFF] emptyStates).states).events
      = [(PanelButton.enter, true)] ∧
    (processMessageBuffer [0x53, 0x05, 0x00, 0xFF]
        (processMessageBuffer [0x53, 0x05, 0x00, 0xFE] emptyStates).states).events
      = [(PanelButton.enter, false)] ∧
    (processMessageBuffer [0x53, 0x05, 0x00, 0xFE]
        (processMessageBuffer [0x53, 0x05, 0x00, 0xFE] emptyStates).states).events
      = [] := by
  refine ⟨?_, by decide, by decide, by decide⟩
  intro s st
  rw [processMessageBuffer_frame, processMessageBuffer_frame]
  show (parseButtonState s (parseButtonState s st).1).2 = []
  unfold parseButtonState
  rw [parseBools_repeat]

/-- C1 counterexample.  On the very first frame (empty last-state map)
the state byte 0xFF produces three events, not exactly one. -/
theorem c1_first_frame_not_single_event :
    (processMessageBuffer [0x53, 0x05, 0x00, 0xFF] emptyStates).events.length = 3 ∧
    ¬ (processMessageBuffer [0x53, 0x05, 0x00, 0xFF] emptyStates).events.length = 1 := by
  decide

/-- C10.  On the first decoded frame ever (empty last-state map) an event
fires for every one of the three buttons, with its decoded value —
including `pressed = false` for buttons that are not pressed. -/
theorem c10_first_frame_all_buttons (s : Nat) :
    (processMessageBuffer [0x53, 0x05, 0x00, s] emptyStates).events =
      [(PanelButton.enter, decide (s &&& 0x01 = 0)),
       (PanelButton.select, decide (s &&& 0x02 = 0)),
       (PanelButton.usbCopy, decide (s &&& 0x04 ≠ 0))] := by
  rw [processMessageBuffer_frame]
  show (parseButtonState s emptyStates).2 = _
  unfold parseButtonState
  rw [parseBools_empty]

/-- C3.  Splitting a valid button frame at any point 1..3: the first
partial read leaves the (previously empty) buffer holding just the
prefix with nothing parsed; appending the remainder and extracting again
parses `s` exactly once and leaves the buffer empty. -/
theorem c3_split_frame (s k : Nat) (st : ButtonStates)
    (h1 : 1 ≤ k) (h2 : k ≤ 3) :
    processMessageBuffer (List.take k [0x53, 0x05, 0x00, s]) st
      = ⟨List.take k [0x53, 0x05, 0x00, s], st, [], []⟩ ∧
    processMessageBuffer
        (List.take k [0x53, 0x05, 0x00, s] ++ List.drop k [0x53, 0x05, 0x00, s]) st
      = ⟨[], (parseButtonState s st).1, (parseButtonState s st).2, [s]⟩ := by
  interval_cases k <;>
    exact ⟨by simp [processMessageBuffer], by simpa using processMessageBuffer_frame s st⟩

/-- Witness for C3 at the concrete input s = 0xFE, k = 2, empty map. -/
theorem c3_split_frame_witness :
    processMessageBuffer (List.take 2 [0x53, 0x05, 0x00, 0xFE]) emptyStates
      = ⟨List.take 2 [0x53, 0x05, 0x00, 0xFE], emptyStates, [], []⟩ ∧
    processMessageBuffer
        (List.take 2 [0x53, 0x05, 0x00, 0xFE] ++ List.drop 2 [0x53, 0x05, 0x00, 0xFE])
        emptyStates
      = ⟨[], (parseButtonState 0xFE emptyStates).1,
          (parseButtonState 0xFE emptyStates).2, [0xFE]⟩ :=
  c3_split_frame 0xFE 2 emptyStates (by decide) (by decide)

/-- C2 (amended).  The buffer never grows without bound: one extraction
pass always leaves at most 3 bytes.  The wholesale discard happens when
more than 16 bytes remain after an unrecognized byte is dropped, so a
buffer of 18 or more bytes none of which opens a recognized frame is
cleared in one pass (17 such bytes instead leave a 3-byte tail). -/
theorem c2_buffer_bounded :
    (∀ (buf : List Nat) (st : ButtonStates),
      ((processMessageBuffer buf st).buffer).length ≤ 3) ∧
    (∀ (buf : List Nat) (st : ButtonStates),
      18 ≤ buf.length →
      (∀ b ∈ buf, b ≠ 0x53 ∧ b ≠ 0x4D ∧ b ≠ 0x55 ∧ b ≠ 0x43) →
      processMessageBuffer buf st = ⟨[], st, [], []⟩) := by
  refine ⟨processMessageBuffer_len_le, ?_⟩
  intro buf st hlen hmem
  rcases buf with _ | ⟨b0, _ | ⟨b1, _ | ⟨b2, _ | ⟨b3, rest⟩⟩⟩⟩ <;>
    simp only [List.length] at hlen <;> try omega
  have h0 := hmem b0 (by simp)
  have h1 : ¬(b0 = 0x53 ∧ b1 = 0x05 ∧ b2 = 0x00) := fun hc => h0.1 hc.1
  have h2 : ¬(b0 = 0x55 ∨ b0 = 0x43) := by
    rintro (hc | hc)
    · exact h0.2.2.1 hc
    · exact h0.2.2.2 hc
  simp only [processMessageBuffer, if_neg h1, if_neg h0.2.1, if_neg h2]
  rw [if_pos (show (b1 :: b2 :: b3 :: rest).length > 16 by simp; omega)]

/-- C2 counterexample.  Seventeen bytes of unrecognized data (0x00) are
more than 16, yet one extraction pass leaves a 3-byte tail, not an empty
buffer. -/
theorem c2_17_bytes_not_cleared :
    (processMessageBuffer (List.replicate 17 0x00) emptyStates).buffer = [0, 0, 0] ∧
    ¬ (processMessageBuffer (List.replicate 17 0x00) emptyStates).buffer = [] := by
  decide

/-- Witness for C2 at a concrete 18-byte buffer of zeros. -/
theorem c2_buffer_bounded_witness :
    processMessageBuffer (List.replicate 18 0x00) emptyStates
      = ⟨[], emptyStates, [], []⟩ :=
  c2_buffer_bounded.2 (List.replicate 18 0x00) emptyStates (by decide)
    (by decide)

end Display

namespace Display

/-- C4.  Every `SetLED` with hardware access is a read-modify-write that
touches only the targeted LED's bit of its own register and no other
register; concretely, for any initial register file, after
`SetLED(Disk1, true)` then `SetLED(Disk2, true)` Disk1's bit (bit 0 of
register 0x81) is still on (cleared — QNAP LEDs are active-low) and
Disk2's bit is on; a subsequent `SetLED(Disk1, false)` leaves Disk2's
bit unchanged. -/
theorem c4_set_led_rmw :
    (∀ (ports : Ports) (led : PanelLED) (t : Bool),
      (∀ r, r ≠ ledRegister led → (SetLED true led t ports).1 r = ports r) ∧
      (∀ i, i < 8 → i ≠ ledBit led →
        ((SetLED true led t ports).1 (ledRegister led)).testBit i
          = (ports (ledRegister led)).testBit i)) ∧
    (∀ ports : Ports,
      (((SetLED true PanelLED.disk2 true
          (SetLED true PanelLED.disk1 true ports).1).1) 0x81).testBit 0 = false ∧
      (((SetLED true PanelLED.disk2 true
          (SetLED true PanelLED.disk1 true ports).1).1) 0x81).testBit 1 = false ∧
      (((SetLED true PanelLED.disk1 false
          (SetLED true PanelLED.disk2 true
            (SetLED true PanelLED.disk1 true ports).1).1).1) 0x81).testBit 1
        = (((SetLED true PanelLED.disk2 true
            (SetLED true PanelLED.disk1 true ports).1).1) 0x81).testBit 1) := by
  constructor
  · intro ports led t
    refine ⟨fun r hr => SetLED_other_reg ports led t r hr, fun i hi hib => ?_⟩
    rw [← testBit_mod256 ((SetLED true led t ports).1 (ledRegister led)) i hi,
      SetLED_reg_mod,
      applyBit_testBit_ne _ (readPort_lt ports _) _ (ledBit_lt led) t i hi hib,
      readPort, testBit_mod256 _ i hi]
  · intro ports
    have e1 : (SetLED true PanelLED.disk1 true ports).1 0x81 % 256
        = applyBit (readPort ports 0x81) 0 true := by
      simpa [ledRegister, ledBit] using SetLED_reg_mod ports PanelLED.disk1 true
    have e2 : (SetLED true PanelLED.disk2 true
          (SetLED true PanelLED.disk1 true ports).1).1 0x81 % 256
        = applyBit (applyBit (readPort ports 0x81) 0 true) 1 true := by
      have := SetLED_reg_mod (SetLED true PanelLED.disk1 true ports).1
        PanelLED.disk2 true
      simpa [ledRegister, ledBit, readPort, e1] using this
    have e3 : (SetLED true PanelLED.disk1 false
          (SetLED true PanelLED.disk2 true
            (SetLED true PanelLED.disk1 true ports).1).1).1 0x81 % 256
        = applyBit (applyBit (applyBit (readPort ports 0x81) 0 true) 1 true)
            0 false := by
      have := SetLED_reg_mod (SetLED true PanelLED.disk2 true
          (SetLED true PanelLED.disk1 true ports).1).1 PanelLED.disk1 false
      simpa [ledRegister, ledBit, readPort, e2] using this
    have hseq := applyBit_disk_seq (readPort ports 0x81) (readPort_lt ports 0x81)
    refine ⟨?_, ?_, ?_⟩
    · rw [← testBit_mod256 _ 0 (by norm_num), e2]
      exact hseq.1
    · rw [← testBit_mod256 _ 1 (by norm_num), e2]
      exact hseq.2.1
    · rw [← testBit_mod256 _ 1 (by norm_num), e3,
        ← testBit_mod256 ((SetLED true PanelLED.disk2 true
            (SetLED true PanelLED.disk1 true ports).1).1 0x81) 1 (by norm_num), e2]
      exact hseq.2.2

/-- Witness for C4 at the all-ones register file. -/
theorem c4_set_led_rmw_witness :
    (SetLED true PanelLED.disk1 true (fun _ => 0xFF)).1 0x91 = 0xFF ∧
    ((SetLED true PanelLED.disk1 true (fun _ => 0xFF)).1 0x81).testBit 3
      = ((0xFF : Nat)).testBit 3 ∧
    (((SetLED true PanelLED.disk2 true
        (SetLED true PanelLED.disk1 true (fun _ => 0xFF)).1).1) 0x81).testBit 0
      = false :=
  ⟨(c4_set_led_rmw.1 (fun _ => 0xFF) PanelLED.disk1 true).1 0x91 (by decide),
   (c4_set_led_rmw.1 (fun _ => 0xFF) PanelLED.disk1 true).2 3 (by decide) (by decide),
   (c4_set_led_rmw.2 (fun _ => 0xFF)).1⟩

/-- C9.  Without I/O port permission (`portPerms = false`), `SetLED`,
`SetDiskLEDs` and `SetStatusLED` are silent no-ops: the register file is
unchanged, the hardware-access trace is empty, and the result is
success, for every argument. -/
theorem c9_no_perms_noop (ports : Ports) (led : PanelLED) (t : Bool)
    (states : List (Nat × Bool)) (red green : Bool) :
    SetLED false led t ports = (ports, [], none) ∧
    SetDiskLEDs false states ports = (ports, [], none) ∧
    SetStatusLED false red green ports = (ports, [], none) :=
  ⟨rfl, rfl, rfl⟩

/-- C5.  `SetDiskActivity` with an LED controller present rejects disk
numbers 0 and 7 with a caller error and succeeds for every disk number
in 1..6 (the underlying LED operations cannot fail here). -/
theorem c5_disk_activity_validation :
    (∀ (perms : Bool) (active : Bool) (ports : Ports),
      (SetDiskActivity (some perms) 0 active ports).2.2.isSome = true ∧
      (SetDiskActivity (some perms) 7 active ports).2.2.isSome = true) ∧
    (∀ (perms : Bool) (active : Bool) (ports : Ports) (n : Int),
      1 ≤ n → n ≤ 6 →
      (SetDiskActivity (some perms) n active ports).2.2 = none) := by
  constructor
  · intro perms active ports
    exact ⟨rfl, rfl⟩
  · intro perms active ports n h1 h2
    interval_cases n <;>
      simp [SetDiskActivity, SetLED_err_none]

/-- Witness for C5 at disk number 3, all-ones registers, no permission. -/
theorem c5_disk_activity_validation_witness :
    (SetDiskActivity (some false) 3 true (fun _ => 0xFF)).2.2 = none :=
  c5_disk_activity_validation.2 false true (fun _ => 0xFF) 3 (by decide) (by decide)

end Display

namespace Display

/-- C6.  The raw read reports pressed exactly when bit 0 is 0; the
debounced read takes 3 samples and reports pressed exactly when at least
2 of the 3 are pressed, so a single minority-disagreeing sample never
changes the reported state. -/
theorem c6_debounce_majority :
    (∀ v : Nat, IsButtonPressed v = true ↔ v.testBit 0 = false) ∧
    (∀ sample : Nat → Nat,
      GetButtonState sample = true ↔
        2 ≤ (List.range 3).countP (fun i => IsButtonPressed (sample i))) ∧
    (∀ (sample : Nat → Nat) (i : Nat) (b : Bool), i < 3 →
      (∀ j, j < 3 → j ≠ i → IsButtonPressed (sample j) = b) →
      GetButtonState sample = b) := by
  refine ⟨?_, ?_, ?_⟩
  · intro v
    simp [IsButtonPressed, Nat.and_one_is_mod, Nat.testBit_zero]
  · intro sample
    have hr : List.range 3 = [0, 1, 2] := rfl
    cases h0 : IsButtonPressed (sample 0) <;>
      cases h1 : IsButtonPressed (sample 1) <;>
      cases h2 : IsButtonPressed (sample 2) <;>
      simp [GetButtonState, hr, h0, h1, h2]
  · intro sample i b hi hmaj
    interval_cases i
    · have ha := hmaj 1 (by norm_num) (by norm_num)
      have hb := hmaj 2 (by norm_num) (by norm_num)
      have hr : List.range 3 = [0, 1, 2] := rfl
      cases hc : IsButtonPressed (sample 0) <;> cases b <;>
        simp_all [GetButtonState, hr]
    · have ha := hmaj 0 (by norm_num) (by norm_num)
      have hb := hmaj 2 (by norm_num) (by norm_num)
      have hr : List.range 3 = [0, 1, 2] := rfl
      cases hc : IsButtonPressed (sample 1) <;> cases b <;>
        simp_all [GetButtonState, hr]
    · have ha := hmaj 0 (by norm_num) (by norm_num)
      have hb := hmaj 1 (by norm_num) (by norm_num)
      have hr : List.range 3 = [0, 1, 2] := rfl
      cases hc : IsButtonPressed (sample 2) <;> cases b <;>
        simp_all [GetButtonState, hr]

/-- C6 witness: two pressed samples (byte 0x00) and one minority
non-pressed sample (byte 0x01) still debounce to pressed. -/
theorem c6_debounce_majority_witness :
    GetButtonState (fun j => if j = 2 then 1 else 0) = true :=
  c6_debounce_majority.2.2 (fun j => if j = 2 then 1 else 0) 2 true
    (by decide) (by decide)

/-- C7.  `ReadAvailable` never returns an error: every underlying read
outcome (any failure, or no data) yields `ok []`, and a non-empty result
is returned only when the underlying read itself produced that data,
i.e. at least one byte. -/
theorem c7_read_available_never_errs :
    (∀ (o : Bool) (r : Except String (List Nat)),
      ∃ l, ReadAvailable o r = Except.ok l) ∧
    (∀ (o : Bool) (msg : String),
      ReadAvailable o (Except.error msg) = Except.ok []) ∧
    (∀ (o : Bool) (r : Except String (List Nat)) (l : List Nat),
      ReadAvailable o r = Except.ok l → l ≠ [] →
      r = Except.ok l ∧ 1 ≤ l.length) := by
  refine ⟨?_, ?_, ?_⟩
  · intro o r
    cases o
    · exact ⟨[], rfl⟩
    · match r with
      | Except.error msg => exact ⟨[], by simp [ReadAvailable]⟩
      | Except.ok [] => exact ⟨[], rfl⟩
      | Except.ok (d :: ds) => exact ⟨d :: ds, by simp [ReadAvailable]⟩
  · intro o msg
    cases o <;> simp [ReadAvailable]
  · intro o r l h hne
    cases o
    · simp [ReadAvailable] at h
      exact absurd h hne
    · match r with
      | Except.error msg =>
        simp [ReadAvailable] at h
        exact absurd h hne
      | Except.ok [] =>
        simp [ReadAvailable] at h
        exact absurd h hne
      | Except.ok (d :: ds) =>
        simp [ReadAvailable] at h
        subst h
        exact ⟨rfl, by simp⟩

/-- Witness for C7 at the one-byte read result `[7]`. -/
theorem c7_read_available_never_errs_witness :
    (Except.ok [7] : Except String (List Nat)) = Except.ok [7] ∧
    1 ≤ ([7] : List Nat).length :=
  c7_read_available_never_errs.2.2 true (Except.ok [7]) [7] rfl (by decide)

/-- C8.  For rows 0 and 1, `WriteTextAt` writes exactly the 20-byte
command `0x4D 0x0C <row> 0x10` plus the text truncated to 16 bytes and
space-padded to exactly 16 bytes; any other row is rejected with an
error and nothing is written. -/
theorem c8_write_text_at :
    (∀ (text : List Nat) (row col : Int), 0 ≤ row → row ≤ 1 →
      WriteTextAt text row col
        = Except.ok ([0x4D, 0x0C, row.toNat, 0x10]
            ++ (text.take 16
                ++ List.replicate (16 - (text.take 16).length) 0x20)) ∧
      (text.take 16 ++ List.replicate (16 - (text.take 16).length) 0x20).length
        = 16 ∧
      (∀ cmd, WriteTextAt text row col = Except.ok cmd → cmd.length = 20)) ∧
    (∀ (text : List Nat) (row col : Int), row < 0 ∨ 1 < row →
      WriteTextAt text row col = Except.error "invalid row") := by
  constructor
  · intro text row col h0 h1
    have hv : ¬(row < 0 ∨ row > 1) := by omega
    have hlen :
        (text.take 16 ++ List.replicate (16 - (text.take 16).length) 0x20).length
          = 16 := by
      have := List.length_take_le 16 text
      simp only [List.length_append, List.length_replicate]
      omega
    refine ⟨by simp [WriteTextAt, hv], hlen, ?_⟩
    intro cmd hcmd
    simp [WriteTextAt, hv] at hcmd
    subst hcmd
    simp [hlen]
  · intro text row col hr
    have hv : row < 0 ∨ row > 1 := by omega
    simp [WriteTextAt, hv]

/-- Witness for C8 at text "AB", row 1. -/
theorem c8_write_text_at_witness :
    WriteTextAt [65, 66] 1 0
      = Except.ok ([0x4D, 0x0C, (1 : Int).toNat, 0x10]
          ++ (([65, 66] : List Nat).take 16
              ++ List.replicate (16 - (([65, 66] : List Nat).take 16).length) 0x20)) ∧
    (([65, 66] : List Nat).take 16
        ++ List.replicate (16 - (([65, 66] : List Nat).take 16).length) 0x20).length
      = 16 ∧
    (∀ cmd, WriteTextAt [65, 66] 1 0 = Except.ok cmd → cmd.length = 20) :=
  c8_write_text_at.1 [65, 66] 1 0 (by decide) (by decide)

end Display
